import Mathlib

/-!
Verification development for the MetroPulse NYC core pipeline
(`backend/app/main.py`): borough geo-classifier, percentile scorer,
TimeDNA extractor, rule-based narrative generator, and the narrative
cache endpoint `get_station_analysis`.

Numeric values are embedded as `ℚ` (Python floats at the granularity of
the thresholds involved), Python `int()` truncation as `truncInt`, and
the mutable module-level caches as explicit parameters / state.
-/

/-- Embeds `normalize_key` (main.py, lines 43-46): strip all characters
outside `[a-zA-Z0-9]`, then lowercase. Absent input is the empty string. -/
def normalize_key (name : String) : String :=
  String.mk ((name.toList.filter fun c => c.isAlphanum).map Char.toLower)

/-- Embeds the `is_manhattan` flag computation of `GeoEngine.get_borough`
(main.py, lines 193-214): three-zone piecewise-linear East River boundary. -/
def is_manhattan (lat lon : ℚ) : Bool :=
  if lat > 40.76 then decide (lon < -73.935)
  else if lat > 40.74 then decide (lon < -73.96)
  else decide (lon < -74.01 + (lat - 40.68) * 0.8)

/-- Embeds `GeoEngine.get_borough` (main.py, lines 170-247). A missing
coordinate yields the catch-all label `"NYC"` (line 177). -/
def get_borough (olat olon : Option ℚ) : String :=
  match olat, olon with
  | some lat, some lon =>
    if lat > 40.835 then "Bronx"
    else if lon < -74.05 then "Staten Island"
    else if lon > -73.85 then "Queens"
    else if is_manhattan lat lon then
      if lat > 40.88 then "Bronx" else "Manhattan"
    else if lat < 40.60 then
      (if lon > -73.90 then "Queens" else "Brooklyn")
    else if lat > 40.70 then
      (if lon > -73.91 then "Queens"
       else if lat > 40.735 then "Queens"
       else "Brooklyn")
    else if lat < 40.70 ∧ lon > -73.86 then "Queens"
    else "Brooklyn"
  | _, _ => "NYC"

/-- `GeoEngine.get_borough` with the Marble Hill override (main.py,
lines 217-218: `if lat > 40.88: return "Bronx"` inside the Manhattan
branch) removed; used to show the override is unreachable. -/
def get_borough_no_marble (olat olon : Option ℚ) : String :=
  match olat, olon with
  | some lat, some lon =>
    if lat > 40.835 then "Bronx"
    else if lon < -74.05 then "Staten Island"
    else if lon > -73.85 then "Queens"
    else if is_manhattan lat lon then "Manhattan"
    else if lat < 40.60 then
      (if lon > -73.90 then "Queens" else "Brooklyn")
    else if lat > 40.70 then
      (if lon > -73.91 then "Queens"
       else if lat > 40.735 then "Queens"
       else "Brooklyn")
    else if lat < 40.70 ∧ lon > -73.86 then "Queens"
    else "Brooklyn"
  | _, _ => "NYC"

/-- Embeds `calculate_percentile` (main.py, lines 329-335): empty
distribution yields 0, a `None` value is replaced by 0, otherwise the
fraction of elements strictly below the value, scaled to 100. -/
def calculate_percentile (data : List ℚ) (value : Option ℚ) : ℚ :=
  if data = [] then 0
  else
    ((data.countP fun x => decide (x < value.getD 0) : ℕ) : ℚ) / (data.length : ℚ) * 100

/-- Python `int()` truncation toward zero, as applied to the bucket means
in `get_clean_time_dna` (main.py, lines 323-326). -/
def truncInt (q : ℚ) : ℤ := if 0 ≤ q then ⌊q⌋ else -⌊-q⌋

/-- Arithmetic mean of a list, embedding `np.mean` on the (always
non-empty) hour slices. -/
def listMean (l : List ℚ) : ℚ := l.sum / (l.length : ℚ)

/-- The four-bucket result of `get_clean_time_dna` (main.py, lines 322-327). -/
structure TimeDNA where
  morning : ℤ
  lunch : ℤ
  evening : ℤ
  night : ℤ
deriving DecidableEq

/-- Bucket computation of `get_clean_time_dna` (main.py, lines 322-327):
`morning = int(mean(day[6:10]))`, `lunch = int(mean(day[11:14]))`,
`evening = int(mean(day[16:20]))`,
`night = int((mean(day[22:24]) + mean(day[0:4])) / 2)`. -/
def time_dna_of (day : List ℚ) : TimeDNA where
  morning := truncInt (listMean ((day.drop 6).take 4))
  lunch := truncInt (listMean ((day.drop 11).take 3))
  evening := truncInt (listMean ((day.drop 16).take 4))
  night := truncInt ((listMean ((day.drop 22).take 2) + listMean (day.take 4)) / 2)

/-- Pulse resolution of `get_clean_time_dna` (main.py, lines 314-319):
the station-specific pulse when the normalized key is cached, else
`cluster_profile[:24] if len(cluster_profile) >= 24 else [20.0]*24`
where `cluster_profile = CLUSTER_PROFILES.get(str(cluster_id), [])`. -/
def resolve_day (pulseCache clusterProfiles : String → Option (List ℚ))
    (station cid : String) : List ℚ :=
  match pulseCache (normalize_key station) with
  | some p => p
  | none =>
    let cluster_profile := (clusterProfiles cid).getD []
    if 24 ≤ cluster_profile.length then cluster_profile.take 24
    else List.replicate 24 (20 : ℚ)

/-- Embeds `get_clean_time_dna` (main.py, lines 313-327). The
`np.nan_to_num` sanitization is the identity in the `ℚ` embedding,
where NaN does not occur. -/
def get_clean_time_dna (pulseCache clusterProfiles : String → Option (List ℚ))
    (station cid : String) : TimeDNA :=
  time_dna_of (resolve_day pulseCache clusterProfiles station cid)

/-- The fallback day shape asserted by the spec sentence "first 24
values, padded with 20.0 if short": the cluster profile's existing
values extended with 20.0 up to length 24. Stated from the spec's
words, for comparison with `resolve_day` (the code's behavior). -/
def spec_padded_fallback (cluster_profile : List ℚ) : List ℚ :=
  cluster_profile ++ List.replicate (24 - cluster_profile.length) (20 : ℚ)

/-- Embeds `peak_time = max(time_dna, key=time_dna.get)` (main.py, line
294): Python `max` scans the dict keys in insertion order
(morning, lunch, evening, night) and keeps the first key whose value is
strictly greater than the running maximum. -/
def peak_time (t : TimeDNA) : String :=
  (([("lunch", t.lunch), ("evening", t.evening), ("night", t.night)].foldl
      (fun best x => if best.2 < x.2 then x else best)
      ("morning", t.morning)).1)

/-- Embeds the time-context sentence selection (main.py, lines 295-306). -/
def time_desc (t : TimeDNA) : String :=
  if peak_time t = "morning" then
    "Passenger volume peaks in the Morning (6-10am), indicating a heavy outbound commuter flow."
  else if peak_time t = "lunch" then
    "Activity is highest midday (11am-2pm), driven by local lunch crowds."
  else if peak_time t = "evening" then
    "Passenger volume swells in the Evening (4-8pm) as the workday ends and retail activity picks up."
  else if peak_time t = "night" then
    "Unusually high Late Night (10pm-4am) ridership signals a destination for after-hours entertainment."
  else
    "Ridership remains consistent throughout the day."

/-- Embeds the primary-character cascade of `RuleBasedNarrative.generate`
(main.py, lines 257-263), first match wins. -/
def character_type (vitality office uni : ℚ) (t : TimeDNA) : String :=
  if uni > 2 then "Academic"
  else if vitality > 75 ∧ t.night > 40 then "Nightlife"
  else if office > 70 then "Corporate"
  else if office > 50 ∧ vitality > 50 then "Mixed-Use"
  else if t.morning > 60 then "Commuter"
  else if vitality < 20 ∧ office < 20 then "Residential"
  else "Standard"

/-- Embeds the persona-title map lookup (main.py, lines 266-275),
with default `"Local Station"`. -/
def persona_of (borough character : String) : String :=
  if character = "Academic" then borough ++ " Student Hub"
  else if character = "Nightlife" then borough ++ " Nightlife District"
  else if character = "Corporate" then borough ++ " Business Center"
  else if character = "Mixed-Use" then "Dynamic " ++ borough ++ " Hub"
  else if character = "Commuter" then "Major Transit Anchor"
  else if character = "Residential" then "Local Neighborhood Stop"
  else if character = "Standard" then borough ++ " Local Stop"
  else "Local Station"

/-- Embeds the vibe-description selection (main.py, lines 278-290). -/
def vibe_desc (borough character : String) (vitality : ℚ) : String :=
  if character = "Academic" then
    "Defined by student foot traffic and nearby educational institutions."
  else if character = "Nightlife" then
    "A high-energy area (Vitality: " ++ toString (truncInt vitality) ++
      "%) bustling with evening social activity."
  else if character = "Corporate" then
    "A dense commercial district dominated by office buildings and professional services."
  else if character = "Mixed-Use" then
    "A balanced \x27Live-Work-Play\x27 neighborhood combining commercial density with social amenities."
  else if character = "Residential" then
    "A quieter, community-focused area serving local residents."
  else
    "A key " ++ borough ++ " transit point serving the surrounding community."

/-- Output of `RuleBasedNarrative.generate`. -/
structure NarrativeOut where
  persona : String
  description : String
deriving DecidableEq

/-- Embeds `RuleBasedNarrative.generate` (main.py, lines 249-311):
persona from the character cascade, description = vibe sentence,
a space, then the time-context sentence. -/
def RuleBasedNarrative.generate (borough : String) (vitality office uni : ℚ)
    (t : TimeDNA) : NarrativeOut :=
  let character := character_type vitality office uni t
  { persona := persona_of borough character
    description := vibe_desc borough character vitality ++ " " ++ time_desc t }

/-- One row of the station feature table (`clusters.parquet` columns
used by `get_station_analysis`, main.py, lines 400-412). -/
structure StationRow where
  cluster_id : String
  lat : Option ℚ
  lon : Option ℚ
  n_bars : Option ℚ
  n_offices : Option ℚ
  n_universities : Option ℚ

/-- The persisted narrative record (main.py, lines 419-424); the
NotFound sentinel (line 398) carries only persona and description, so
the score and AI fields are optional. -/
structure NarrativeRecord where
  persona : String
  description : String
  vitality_score : Option ℚ
  office_score : Option ℚ
  is_ai_generated : Option Bool
deriving DecidableEq

/-- The non-persisted sentinel returned for an unknown station
(main.py, line 398). -/
def sentinelRecord : NarrativeRecord :=
  { persona := "Unknown Station", description := "Data unavailable."
    vitality_score := none, office_score := none, is_ai_generated := none }

/-- The read-only startup state of the backend process: feature-table
lookup, pulse cache, cluster archetype profiles, the two global
percentile distributions, and the optional polish collaborator
(`client`, abstracted as station ↦ polished description or failure). -/
structure Env where
  table : String → Option StationRow
  pulseCache : String → Option (List ℚ)
  clusterProfiles : String → Option (List ℚ)
  bars : List ℚ
  offices : List ℚ
  polish : Option (String → Option String)

/-- Result of one `get_station_analysis` call: the returned record, the
in-memory `NARRATIVES_CACHE` and the on-disk `narratives.json` after the
call, plus counters for polish-collaborator invocations and narrative
generations performed during the call. -/
structure CallResult where
  record : NarrativeRecord
  mem : List (String × NarrativeRecord)
  disk : List (String × NarrativeRecord)
  polishCalls : ℕ
  genCalls : ℕ
deriving DecidableEq

/-- Embeds the optional LLM polish block (main.py, lines 426-458) as a
function of the abstracted collaborator: with no configured client the
baseline record is kept with zero polish attempts; with a client, one
attempt is counted, and on success only the description is replaced and
`is_ai_generated` set, while any failure keeps the baseline. -/
def applyPolish (polish : Option (String → Option String)) (station : String)
    (result0 : NarrativeRecord) : NarrativeRecord × ℕ :=
  match polish with
  | none => (result0, 0)
  | some f =>
    match f station with
    | some d => ({ result0 with description := d, is_ai_generated := some true }, 1)
    | none => (result0, 1)

/-- Embeds `get_station_analysis` (main.py, lines 388-463). `mem` is the
in-memory `NARRATIVES_CACHE` keyed by the raw station string, `disk` the
persisted file contents; `persistOk` is whether the `save_cache` write
succeeds (on failure the exception is swallowed, main.py, lines 68-73).
Cache hit returns the stored record unchanged; miss with unknown station
returns the sentinel without caching; otherwise the record is computed,
optionally polished (the polish attempt is counted whether or not it
succeeds), stored in memory, and the whole mapping is written to disk. -/
def get_station_analysis (env : Env) (persistOk : Bool)
    (mem disk : List (String × NarrativeRecord)) (station : String) : CallResult :=
  match mem.lookup station with
  | some r => ⟨r, mem, disk, 0, 0⟩
  | none =>
    match env.table station with
    | none => ⟨sentinelRecord, mem, disk, 0, 0⟩
    | some row =>
      let borough := get_borough row.lat row.lon
      let t := get_clean_time_dna env.pulseCache env.clusterProfiles station row.cluster_id
      let vitality_score := calculate_percentile env.bars row.n_bars
      let office_score := calculate_percentile env.offices row.n_offices
      let uni_count := row.n_universities.getD 0
      let base := RuleBasedNarrative.generate borough vitality_score office_score uni_count t
      let result0 : NarrativeRecord :=
        { persona := base.persona, description := base.description
          vitality_score := some vitality_score, office_score := some office_score
          is_ai_generated := some false }
      let polished := applyPolish env.polish station result0
      let mem2 := (station, polished.1) :: mem
      ⟨polished.1, mem2, if persistOk then mem2 else disk, polished.2, 1⟩

example : peak_time ⟨30, 20, 45, 55⟩ = "night" := by rfl
example : peak_time ⟨20, 20, 20, 20⟩ = "morning" := by rfl
example : character_type 90 20 0 ⟨30, 20, 45, 55⟩ = "Nightlife" := by
  norm_num [character_type]
example : calculate_percentile [1] (some 2) = 100 := by
  norm_num [calculate_percentile, List.countP, List.countP.go]
example : calculate_percentile [1, 2] (some 2) = 50 := by
  norm_num [calculate_percentile, List.countP, List.countP.go, List.cons_ne_nil]
example : calculate_percentile [] (some 7) = 0 := by
  norm_num [calculate_percentile]
example : get_borough (some 40.739) (some (-74.002)) = "Manhattan" := by
  norm_num [get_borough, is_manhattan]
example : get_borough none (some 1) = "NYC" := by rfl

/-- Composition of two successive `get_station_analysis` calls for the
same station: the second call starts from the state the first left. -/
def secondCall (env : Env) (persistOk : Bool)
    (mem disk : List (String × NarrativeRecord)) (station : String) : CallResult :=
  get_station_analysis env persistOk
    (get_station_analysis env persistOk mem disk station).mem
    (get_station_analysis env persistOk mem disk station).disk station

/-- An environment with no stations, no pulses and no polish client. -/
def trivialEnv : Env where
  table := fun _ => none
  pulseCache := fun _ => none
  clusterProfiles := fun _ => none
  bars := []
  offices := []
  polish := none

/-- A feature row with absent coordinates and absent amenity counts. -/
def bareRow : StationRow where
  cluster_id := "0"
  lat := none
  lon := none
  n_bars := none
  n_offices := none
  n_universities := none

/-- An environment knowing the single station `"A"`, without polish. -/
def oneStationEnv : Env where
  table := fun s => if s = "A" then some bareRow else none
  pulseCache := fun _ => none
  clusterProfiles := fun _ => none
  bars := []
  offices := []
  polish := none


/-- C2 counterexample: with a missing coordinate the classifier returns
the catch-all label `"NYC"`, not `"Unknown"` as the claim states. -/
theorem get_borough_missing_cex :
    get_borough none none = "NYC" ∧ get_borough none none ≠ "Unknown" := by
  exact ⟨rfl, by decide⟩

/-- C2 (amended): the classifier is total over the six labels Bronx,
Staten Island, Queens, Manhattan, Brooklyn and NYC, and a missing
coordinate yields the catch-all label `"NYC"`. -/
theorem get_borough_total :
    ∀ olat olon : Option ℚ,
      (get_borough olat olon = "Bronx" ∨ get_borough olat olon = "Staten Island" ∨
        get_borough olat olon = "Queens" ∨ get_borough olat olon = "Manhattan" ∨
        get_borough olat olon = "Brooklyn" ∨ get_borough olat olon = "NYC") ∧
      ((olat = none ∨ olon = none) → get_borough olat olon = "NYC") := by
  intro olat olon
  match olat, olon with
  | none, none => exact ⟨by simp [get_borough], fun _ => rfl⟩
  | none, some lon => exact ⟨by simp [get_borough], fun _ => rfl⟩
  | some lat, none => exact ⟨by simp [get_borough], fun _ => rfl⟩
  | some lat, some lon =>
    refine ⟨?_, by rintro (h | h) <;> exact Option.noConfusion h⟩
    simp only [get_borough]
    split_ifs <;> simp

/-- Witness for C2 at a concrete missing-latitude input. -/
theorem get_borough_total_witness :
    (get_borough none (some 0) = "Bronx" ∨ get_borough none (some 0) = "Staten Island" ∨
      get_borough none (some 0) = "Queens" ∨ get_borough none (some 0) = "Manhattan" ∨
      get_borough none (some 0) = "Brooklyn" ∨ get_borough none (some 0) = "NYC") ∧
    get_borough none (some 0) = "NYC" :=
  ⟨(get_borough_total none (some 0)).1, (get_borough_total none (some 0)).2 (Or.inl rfl)⟩

/-- C10: the Marble Hill override (`lat > 40.88` inside the Manhattan
branch) is unreachable, because any such latitude was already sent to
Bronx by the first cascade rule `lat > 40.835`; the classifier with the
override removed is extensionally equal to the full classifier. -/
theorem marble_hill_override_unreachable :
    ∀ olat olon : Option ℚ, get_borough olat olon = get_borough_no_marble olat olon := by
  intro olat olon
  match olat, olon with
  | none, none => rfl
  | none, some lon => rfl
  | some lat, none => rfl
  | some lat, some lon =>
    simp only [get_borough, get_borough_no_marble]
    split_ifs <;> first | rfl | linarith

/-- C3 counterexample: on the one-element distribution `[1]` at value 2
the percentile is exactly 100, so the result does not always lie in the
half-open interval `[0, 100)`. -/
theorem calculate_percentile_cex :
    calculate_percentile [1] (some 2) = 100 ∧
    ¬ calculate_percentile [1] (some 2) < 100 := by
  have h : calculate_percentile [1] (some 2) = 100 := by
    norm_num [calculate_percentile, List.countP, List.countP.go]
  exact ⟨h, by rw [h]; exact lt_irrefl 100⟩

/-- C3 (amended): `calculate_percentile` returns 0 on the empty
distribution, treats a null value as 0, otherwise returns
`100 * |{x : x < value}| / |distribution|` with strict rank, and the
result lies in the closed interval `[0, 100]` (100 is attained when the
value exceeds every element). -/
theorem calculate_percentile_spec :
    (∀ v, calculate_percentile [] v = 0) ∧
    (∀ data : List ℚ, calculate_percentile data none = calculate_percentile data (some 0)) ∧
    (∀ (data : List ℚ) (v : ℚ), data ≠ [] →
      calculate_percentile data (some v) =
        100 * ((data.countP fun x => decide (x < v) : ℕ) : ℚ) / (data.length : ℚ)) ∧
    (∀ (data : List ℚ) (v : Option ℚ),
      0 ≤ calculate_percentile data v ∧ calculate_percentile data v ≤ 100) := by
  refine ⟨fun v => by simp [calculate_percentile], fun data => rfl, ?_, ?_⟩
  · intro data v h
    simp only [calculate_percentile, if_neg h, Option.getD_some]
    ring
  · intro data v
    by_cases h : data = []
    · subst h; simp [calculate_percentile]
    · have hn : 0 < (data.length : ℚ) := by
        exact_mod_cast List.length_pos.mpr h
      have hc : ((data.countP fun x => decide (x < v.getD 0) : ℕ) : ℚ) ≤ (data.length : ℚ) := by
        exact_mod_cast List.countP_le_length (fun x => decide (x < v.getD 0))
      have h1 : ((data.countP fun x => decide (x < v.getD 0) : ℕ) : ℚ) / (data.length : ℚ) ≤ 1 :=
        (div_le_one hn).mpr hc
      have h0 : (0 : ℚ) ≤ ((data.countP fun x => decide (x < v.getD 0) : ℕ) : ℚ) / (data.length : ℚ) :=
        div_nonneg (Nat.cast_nonneg _) hn.le
      constructor
      · simp only [calculate_percentile, if_neg h]
        nlinarith
      · simp only [calculate_percentile, if_neg h]
        nlinarith

/-- Witness for C3 at the distribution `[3]` and value 7. -/
theorem calculate_percentile_spec_witness :
    calculate_percentile [] (some 5) = 0 ∧
    calculate_percentile [3] none = calculate_percentile [3] (some 0) ∧
    calculate_percentile [3] (some 7) =
      100 * ((([3] : List ℚ).countP fun x => decide (x < 7) : ℕ) : ℚ) /
        (([3] : List ℚ).length : ℚ) ∧
    (0 ≤ calculate_percentile [3] (some 7) ∧ calculate_percentile [3] (some 7) ≤ 100) :=
  ⟨calculate_percentile_spec.1 (some 5), calculate_percentile_spec.2.1 [3],
    calculate_percentile_spec.2.2.1 [3] 7 (by simp),
    calculate_percentile_spec.2.2.2 [3] (some 7)⟩

/-- C7: for a fixed distribution the percentile is monotonically
non-decreasing in the value, the percentile of the distribution's
minimum element is 0, and the empty distribution always yields 0. -/
theorem calculate_percentile_monotone :
    (∀ (data : List ℚ) (v w : ℚ), v ≤ w →
      calculate_percentile data (some v) ≤ calculate_percentile data (some w)) ∧
    (∀ (data : List ℚ) (v : ℚ), v ∈ data → (∀ x ∈ data, v ≤ x) →
      calculate_percentile data (some v) = 0) ∧
    (∀ v, calculate_percentile [] v = 0) := by
  refine ⟨?_, ?_, fun v => by simp [calculate_percentile]⟩
  · intro data v w hvw
    by_cases h : data = []
    · subst h; simp [calculate_percentile]
    · have hn : 0 < (data.length : ℚ) := by
        exact_mod_cast List.length_pos.mpr h
      simp only [calculate_percentile, if_neg h, Option.getD_some]
      have hc : data.countP (fun x => decide (x < v)) ≤ data.countP (fun x => decide (x < w)) := by
        apply List.countP_mono_left
        intro x _ hx
        simp only [decide_eq_true_eq] at hx ⊢
        exact lt_of_lt_of_le hx hvw
      have hcq : ((data.countP fun x => decide (x < v) : ℕ) : ℚ) ≤
          ((data.countP fun x => decide (x < w) : ℕ) : ℚ) := by exact_mod_cast hc
      gcongr
  · intro data v hv hmin
    have h : data ≠ [] := List.ne_nil_of_mem hv
    have hz : data.countP (fun x => decide (x < v)) = 0 := by
      rw [List.countP_eq_zero]
      intro x hx
      simp only [decide_eq_true_eq]
      exact not_lt.mpr (hmin x hx)
    simp [calculate_percentile, if_neg h, hz]

/-- Witness for C7 on the distribution `[3, 5]`. -/
theorem calculate_percentile_monotone_witness :
    calculate_percentile [3, 5] (some 1) ≤ calculate_percentile [3, 5] (some 2) ∧
    calculate_percentile [3, 5] (some 3) = 0 ∧
    calculate_percentile [] (some 9) = 0 :=
  ⟨calculate_percentile_monotone.1 [3, 5] 1 2 one_le_two,
    calculate_percentile_monotone.2.1 [3, 5] 3 (by simp)
      (by intro x hx; rcases List.mem_pair.mp hx with rfl | rfl <;> norm_num),
    calculate_percentile_monotone.2.2 (some 9)⟩


/-- C9: for bars percentile 90, office percentile 20, universities 0,
TimeDNA {morning 30, lunch 20, evening 45, night 55} and coordinates
(40.739, -74.002), the classifier returns "Manhattan", the cascade
selects "Nightlife", and the persona is "Manhattan Nightlife District". -/
theorem end_to_end_manhattan_nightlife :
    get_borough (some 40.739) (some (-74.002)) = "Manhattan" ∧
    character_type 90 20 0 ⟨30, 20, 45, 55⟩ = "Nightlife" ∧
    (RuleBasedNarrative.generate "Manhattan" 90 20 0 ⟨30, 20, 45, 55⟩).persona =
      "Manhattan Nightlife District" := by
  have hct : character_type 90 20 0 ⟨30, 20, 45, 55⟩ = "Nightlife" := by
    norm_num [character_type]
  refine ⟨by norm_num [get_borough, is_manhattan], hct, ?_⟩
  show persona_of "Manhattan" (character_type 90 20 0 ⟨30, 20, 45, 55⟩) =
    "Manhattan Nightlife District"
  rw [hct]
  rfl

/-- C4 counterexample: with no station pulse and the one-element cluster
profile `[50]`, the resolved day shape is the constant all-20 list; the
profile's existing value 50 is discarded, not kept and padded as the
claim states. -/
theorem cluster_fallback_cex :
    resolve_day (fun _ => none) (fun c => if c = "7" then some [50] else none) "st" "7" =
      List.replicate 24 (20 : ℚ) ∧
    resolve_day (fun _ => none) (fun c => if c = "7" then some [50] else none) "st" "7" ≠
      spec_padded_fallback [50] := by
  have h1 : resolve_day (fun _ => none) (fun c => if c = "7" then some [50] else none) "st" "7" =
      List.replicate 24 (20 : ℚ) := rfl
  refine ⟨h1, ?_⟩
  rw [h1, show List.replicate 24 (20 : ℚ) = (20 : ℚ) :: List.replicate 23 20 from rfl,
    show spec_padded_fallback [50] = (50 : ℚ) :: List.replicate 23 20 from rfl]
  intro h
  rw [List.cons.injEq] at h
  exact absurd h.1 (by norm_num)

/-- C4 (amended): with no station-specific pulse, a cluster profile with
fewer than 24 values is discarded entirely and the constant all-20.0
day shape of length 24 is used; with at least 24 values exactly the
first 24 are used. -/
theorem cluster_fallback_amended :
    ∀ (pulseCache clusterProfiles : String → Option (List ℚ)) (station cid : String),
      pulseCache (normalize_key station) = none →
      (((clusterProfiles cid).getD []).length < 24 →
        resolve_day pulseCache clusterProfiles station cid = List.replicate 24 (20 : ℚ)) ∧
      (24 ≤ ((clusterProfiles cid).getD []).length →
        resolve_day pulseCache clusterProfiles station cid =
          ((clusterProfiles cid).getD []).take 24) := by
  intro pc cps s cid hpc
  constructor
  · intro hlen
    simp only [resolve_day, hpc]
    rw [if_neg (by omega)]
  · intro hlen
    simp only [resolve_day, hpc]
    rw [if_pos hlen]

/-- Witness for C4 at a short profile `[50]` and a full profile of 24
sevens. -/
theorem cluster_fallback_amended_witness :
    resolve_day (fun _ => none) (fun _ => some [50]) "st" "7" = List.replicate 24 (20 : ℚ) ∧
    resolve_day (fun _ => none) (fun _ => some (List.replicate 24 (7 : ℚ))) "st" "7" =
      (List.replicate 24 (7 : ℚ)).take 24 :=
  ⟨(cluster_fallback_amended (fun _ => none) (fun _ => some [50]) "st" "7" rfl).1 (by simp),
    (cluster_fallback_amended (fun _ => none) (fun _ => some (List.replicate 24 (7 : ℚ)))
      "st" "7" rfl).2 (by simp)⟩

/-- The mean of a non-empty list with entries in `[0, 100]` lies in
`[0, 100]`. -/
theorem listMean_bounds {l : List ℚ} (hne : l ≠ [])
    (hb : ∀ x ∈ l, 0 ≤ x ∧ x ≤ 100) : 0 ≤ listMean l ∧ listMean l ≤ 100 := by
  have hn : 0 < (l.length : ℚ) := by
    exact_mod_cast List.length_pos.mpr hne
  have hs0 : 0 ≤ l.sum := List.sum_nonneg fun x hx => (hb x hx).1
  have hs1 : l.sum ≤ (l.length : ℚ) * 100 := by
    have h := List.sum_le_card_nsmul l 100 fun x hx => (hb x hx).2
    simpa [nsmul_eq_mul] using h
  refine ⟨div_nonneg hs0 hn.le, ?_⟩
  rw [listMean, div_le_iff₀ hn]
  linarith

/-- Truncation of a rational in `[0, 100]` is an integer in `[0, 100]`. -/
theorem truncInt_bounds {q : ℚ} (h0 : 0 ≤ q) (h1 : q ≤ 100) :
    0 ≤ truncInt q ∧ truncInt q ≤ 100 := by
  rw [truncInt, if_pos h0]
  refine ⟨Int.floor_nonneg.mpr h0, ?_⟩
  have h := Int.floor_le_floor (α := ℚ) h1
  simpa using h

/-- An hour-window slice of a 24-hour day with entries in `[0, 100]`
has its mean in `[0, 100]`. -/
theorem slice_mean_bounds {day : List ℚ} (hlen : day.length = 24)
    (hb : ∀ x ∈ day, 0 ≤ x ∧ x ≤ 100) (a b : ℕ) (ha : a < 24) (hb0 : b ≠ 0) :
    0 ≤ listMean ((day.drop a).take b) ∧ listMean ((day.drop a).take b) ≤ 100 := by
  apply listMean_bounds
  · have hlen2 : ((day.drop a).take b).length = min b (24 - a) := by
      rw [List.length_take, List.length_drop, hlen]
    intro hnil
    rw [hnil] at hlen2
    simp only [List.length_nil] at hlen2
    omega
  · intro x hx
    exact hb x (List.mem_of_mem_drop (List.mem_of_mem_take hx))

/-- C8: for a 24-value pulse with entries in `[0, 100]` the four TimeDNA
buckets are integers in `[0, 100]`, and the constant all-20 fallback
pulse yields all four buckets equal to 20. -/
theorem time_dna_in_range :
    (∀ day : List ℚ, day.length = 24 → (∀ x ∈ day, 0 ≤ x ∧ x ≤ 100) →
      (0 ≤ (time_dna_of day).morning ∧ (time_dna_of day).morning ≤ 100) ∧
      (0 ≤ (time_dna_of day).lunch ∧ (time_dna_of day).lunch ≤ 100) ∧
      (0 ≤ (time_dna_of day).evening ∧ (time_dna_of day).evening ≤ 100) ∧
      (0 ≤ (time_dna_of day).night ∧ (time_dna_of day).night ≤ 100)) ∧
    time_dna_of (List.replicate 24 (20 : ℚ)) = ⟨20, 20, 20, 20⟩ := by
  constructor
  · intro day hlen hb
    obtain ⟨m0, m1⟩ := slice_mean_bounds hlen hb 6 4 (by norm_num) (by norm_num)
    obtain ⟨l0, l1⟩ := slice_mean_bounds hlen hb 11 3 (by norm_num) (by norm_num)
    obtain ⟨e0, e1⟩ := slice_mean_bounds hlen hb 16 4 (by norm_num) (by norm_num)
    obtain ⟨n0, n1⟩ := slice_mean_bounds hlen hb 22 2 (by norm_num) (by norm_num)
    obtain ⟨z0, z1⟩ := slice_mean_bounds hlen hb 0 4 (by norm_num) (by norm_num)
    rw [List.drop_zero] at z0 z1
    exact ⟨truncInt_bounds m0 m1, truncInt_bounds l0 l1, truncInt_bounds e0 e1,
      truncInt_bounds (by linarith) (by linarith)⟩
  · have hmean : ∀ n : ℕ, n ≠ 0 → listMean (List.replicate n (20 : ℚ)) = 20 := by
      intro n hn
      rw [listMean, List.sum_replicate, List.length_replicate, nsmul_eq_mul, mul_comm,
        mul_div_assoc, div_self (by exact_mod_cast hn), mul_one]
    have htr : truncInt 20 = 20 := by
      rw [truncInt, if_pos (by norm_num)]
      simp
    simp only [time_dna_of, List.take_replicate, List.drop_replicate]
    norm_num [hmean, htr]

/-- Witness for C8 at the constant all-20 pulse of length 24. -/
theorem time_dna_in_range_witness :
    (0 ≤ (time_dna_of (List.replicate 24 (20 : ℚ))).morning ∧
      (time_dna_of (List.replicate 24 (20 : ℚ))).morning ≤ 100) ∧
    (0 ≤ (time_dna_of (List.replicate 24 (20 : ℚ))).lunch ∧
      (time_dna_of (List.replicate 24 (20 : ℚ))).lunch ≤ 100) ∧
    (0 ≤ (time_dna_of (List.replicate 24 (20 : ℚ))).evening ∧
      (time_dna_of (List.replicate 24 (20 : ℚ))).evening ≤ 100) ∧
    (0 ≤ (time_dna_of (List.replicate 24 (20 : ℚ))).night ∧
      (time_dna_of (List.replicate 24 (20 : ℚ))).night ≤ 100) :=
  time_dna_in_range.1 (List.replicate 24 20) (by simp)
    (by intro x hx; rw [List.eq_of_mem_replicate hx]; norm_num)

/-- Python-max case analysis for `peak_time`: the returned key is the
first bucket attaining the maximum, in the order
morning, lunch, evening, night. -/
theorem peak_time_cases (t : TimeDNA) :
    (peak_time t = "morning" ∧ t.lunch ≤ t.morning ∧ t.evening ≤ t.morning ∧
      t.night ≤ t.morning) ∨
    (peak_time t = "lunch" ∧ t.morning < t.lunch ∧ t.evening ≤ t.lunch ∧
      t.night ≤ t.lunch) ∨
    (peak_time t = "evening" ∧ t.morning < t.evening ∧ t.lunch < t.evening ∧
      t.night ≤ t.evening) ∨
    (peak_time t = "night" ∧ t.morning < t.night ∧ t.lunch < t.night ∧
      t.evening < t.night) := by
  obtain ⟨m, l, e, n⟩ := t
  simp only [peak_time, List.foldl]
  by_cases h1 : m < l
  · rw [if_pos h1]
    by_cases h2 : l < e
    · rw [if_pos h2]
      by_cases h3 : e < n
      · rw [if_pos h3]
        exact Or.inr (Or.inr (Or.inr ⟨rfl, by omega, by omega, by omega⟩))
      · rw [if_neg h3]
        exact Or.inr (Or.inr (Or.inl ⟨rfl, by omega, by omega, by omega⟩))
    · rw [if_neg h2]
      by_cases h3 : l < n
      · rw [if_pos h3]
        exact Or.inr (Or.inr (Or.inr ⟨rfl, by omega, by omega, by omega⟩))
      · rw [if_neg h3]
        exact Or.inr (Or.inl ⟨rfl, by omega, by omega, by omega⟩)
  · rw [if_neg h1]
    by_cases h2 : m < e
    · rw [if_pos h2]
      by_cases h3 : e < n
      · rw [if_pos h3]
        exact Or.inr (Or.inr (Or.inr ⟨rfl, by omega, by omega, by omega⟩))
      · rw [if_neg h3]
        exact Or.inr (Or.inr (Or.inl ⟨rfl, by omega, by omega, by omega⟩))
    · rw [if_neg h2]
      by_cases h3 : m < n
      · rw [if_pos h3]
        exact Or.inr (Or.inr (Or.inr ⟨rfl, by omega, by omega, by omega⟩))
      · rw [if_neg h3]
        exact Or.inl ⟨rfl, by omega, by omega, by omega⟩

/-- C6 counterexample: with all four TimeDNA buckets equal (all 20), the
generated description uses the morning-peak sentence, not the
"consistent ridership" fallback the claim requires for that case. -/
theorem all_equal_dna_morning_cex :
    (RuleBasedNarrative.generate "Brooklyn" 0 0 0 ⟨20, 20, 20, 20⟩).description =
      "A quieter, community-focused area serving local residents. Passenger volume peaks in the Morning (6-10am), indicating a heavy outbound commuter flow." ∧
    (RuleBasedNarrative.generate "Brooklyn" 0 0 0 ⟨20, 20, 20, 20⟩).description ≠
      "A quieter, community-focused area serving local residents. Ridership remains consistent throughout the day." := by
  have hct : character_type 0 0 0 ⟨20, 20, 20, 20⟩ = "Residential" := by
    norm_num [character_type]
  have hd : (RuleBasedNarrative.generate "Brooklyn" 0 0 0 ⟨20, 20, 20, 20⟩).description =
      "A quieter, community-focused area serving local residents. Passenger volume peaks in the Morning (6-10am), indicating a heavy outbound commuter flow." := by
    show vibe_desc "Brooklyn" (character_type 0 0 0 ⟨20, 20, 20, 20⟩) 0 ++ " " ++
      time_desc ⟨20, 20, 20, 20⟩ = _
    rw [hct]
    rfl
  refine ⟨hd, ?_⟩
  rw [hd]
  decide

/-- C6 (amended): the second sentence names the dominant TimeDNA bucket
(maximum value, ties resolved in the fixed order morning, lunch,
evening, night); the "consistent ridership" fallback branch is
unreachable, so it is never used — in particular all-equal buckets
yield the morning sentence. -/
theorem time_desc_dominant_bucket :
    ∀ t : TimeDNA,
      (t.lunch ≤ t.morning ∧ t.evening ≤ t.morning ∧ t.night ≤ t.morning →
        time_desc t =
          "Passenger volume peaks in the Morning (6-10am), indicating a heavy outbound commuter flow.") ∧
      (t.morning < t.lunch ∧ t.evening ≤ t.lunch ∧ t.night ≤ t.lunch →
        time_desc t = "Activity is highest midday (11am-2pm), driven by local lunch crowds.") ∧
      (t.morning < t.evening ∧ t.lunch < t.evening ∧ t.night ≤ t.evening →
        time_desc t =
          "Passenger volume swells in the Evening (4-8pm) as the workday ends and retail activity picks up.") ∧
      (t.morning < t.night ∧ t.lunch < t.night ∧ t.evening < t.night →
        time_desc t =
          "Unusually high Late Night (10pm-4am) ridership signals a destination for after-hours entertainment.") ∧
      time_desc t ≠ "Ridership remains consistent throughout the day." := by
  intro t
  rcases peak_time_cases t with ⟨hp, h⟩ | ⟨hp, h⟩ | ⟨hp, h⟩ | ⟨hp, h⟩ <;>
    refine ⟨?_, ?_, ?_, ?_, ?_⟩ <;>
    first
      | (intro hdom; omega)
      | (intro hdom; rw [time_desc, hp]; rfl)
      | (rw [time_desc, hp]; decide)

/-- Cache hit: a stored record is returned verbatim with no state
change, no polish call and no generation. -/
theorem gsa_hit {env : Env} {p : Bool} {mem disk : List (String × NarrativeRecord)}
    {s : String} {r : NarrativeRecord} (h : mem.lookup s = some r) :
    get_station_analysis env p mem disk s = ⟨r, mem, disk, 0, 0⟩ := by
  simp only [get_station_analysis, h]

/-- Unknown station: the sentinel is returned and nothing is cached,
polished or generated. -/
theorem gsa_notfound {env : Env} {p : Bool} {mem disk : List (String × NarrativeRecord)}
    {s : String} (h1 : mem.lookup s = none) (h2 : env.table s = none) :
    get_station_analysis env p mem disk s = ⟨sentinelRecord, mem, disk, 0, 0⟩ := by
  simp only [get_station_analysis, h1, h2]

/-- The polish step makes at most one collaborator attempt. -/
theorem applyPolish_snd_le_one (polish : Option (String → Option String))
    (station : String) (result0 : NarrativeRecord) :
    (applyPolish polish station result0).2 ≤ 1 := by
  rcases polish with _ | f
  · exact Nat.zero_le 1
  · rcases hf : f station with _ | d <;> simp [applyPolish, hf]

/-- Cache miss on a known station: some record is computed once, with at
most one polish attempt, stored at the front of the in-memory cache, and
persisted exactly when the write succeeds. -/
theorem gsa_miss {env : Env} {p : Bool} {mem disk : List (String × NarrativeRecord)}
    {s : String} {row : StationRow} (h1 : mem.lookup s = none)
    (h2 : env.table s = some row) :
    ∃ rec k, k ≤ 1 ∧ get_station_analysis env p mem disk s =
      ⟨rec, (s, rec) :: mem, if p then (s, rec) :: mem else disk, k, 1⟩ := by
  simp only [get_station_analysis, h1, h2]
  exact ⟨_, _, applyPolish_snd_le_one _ _ _, rfl⟩

/-- C1: two successive `get_station_analysis` calls for the same station
return identical records, the polish collaborator is invoked at most
once across both calls, and whenever the first call leaves a stored
record for that station the second call returns it verbatim with no
generation, no polish attempt and no cache change. -/
theorem narrative_cache_idempotent :
    ∀ (env : Env) (persistOk : Bool) (mem disk : List (String × NarrativeRecord)) (s : String),
      (secondCall env persistOk mem disk s).record =
        (get_station_analysis env persistOk mem disk s).record ∧
      (get_station_analysis env persistOk mem disk s).polishCalls +
        (secondCall env persistOk mem disk s).polishCalls ≤ 1 ∧
      (∀ rec, (get_station_analysis env persistOk mem disk s).mem.lookup s = some rec →
        (secondCall env persistOk mem disk s).record = rec ∧
        (secondCall env persistOk mem disk s).polishCalls = 0 ∧
        (secondCall env persistOk mem disk s).genCalls = 0 ∧
        (secondCall env persistOk mem disk s).mem =
          (get_station_analysis env persistOk mem disk s).mem) := by
  intro env p mem disk s
  cases h1 : mem.lookup s with
  | some r =>
    have e1 : get_station_analysis env p mem disk s = ⟨r, mem, disk, 0, 0⟩ := gsa_hit h1
    have e2 : secondCall env p mem disk s = ⟨r, mem, disk, 0, 0⟩ := by
      rw [secondCall, e1]
      exact gsa_hit h1
    simp only [e1, e2]
    refine ⟨by simp, by omega, ?_⟩
    intro rec hrec
    rw [h1] at hrec
    injection hrec with hrec
    subst hrec
    exact ⟨by simp, by simp, by simp, by simp⟩
  | none =>
    cases h2 : env.table s with
    | none =>
      have e1 : get_station_analysis env p mem disk s = ⟨sentinelRecord, mem, disk, 0, 0⟩ :=
        gsa_notfound h1 h2
      have e2 : secondCall env p mem disk s = ⟨sentinelRecord, mem, disk, 0, 0⟩ := by
        rw [secondCall, e1]
        exact gsa_notfound h1 h2
      simp only [e1, e2]
      refine ⟨by simp, by omega, ?_⟩
      intro rec hrec
      rw [h1] at hrec
      exact Option.noConfusion hrec
    | some row =>
      obtain ⟨rec0, k, hk, e1⟩ := gsa_miss (p := p) h1 h2
      have e2 : secondCall env p mem disk s =
          ⟨rec0, (s, rec0) :: mem, if p then (s, rec0) :: mem else disk, 0, 0⟩ := by
        rw [secondCall, e1]
        exact gsa_hit List.lookup_cons_self
      simp only [e1, e2]
      refine ⟨by simp, by omega, ?_⟩
      intro rec hrec
      rw [List.lookup_cons_self] at hrec
      injection hrec with hrec
      subst hrec
      exact ⟨by simp, by simp, by simp, by simp⟩

/-- Witness for C1: the station `"A"` is already stored, so the second
call returns the stored record with no polish, no generation and no
cache change. -/
theorem narrative_cache_idempotent_witness :
    (secondCall trivialEnv true [("A", sentinelRecord)] [] "A").record = sentinelRecord ∧
    (secondCall trivialEnv true [("A", sentinelRecord)] [] "A").polishCalls = 0 ∧
    (secondCall trivialEnv true [("A", sentinelRecord)] [] "A").genCalls = 0 ∧
    (secondCall trivialEnv true [("A", sentinelRecord)] [] "A").mem =
      (get_station_analysis trivialEnv true [("A", sentinelRecord)] [] "A").mem :=
  (narrative_cache_idempotent trivialEnv true [("A", sentinelRecord)] [] "A").2.2
    sentinelRecord rfl

/-- C5 counterexample: for station `"A"` with a failed persistence write
(the disk stays empty), the next request for `"A"` performs no
generation at all — it is served from the in-memory cache — contrary to
the claim that generation is retried on the next request. -/
theorem persist_failure_no_retry_cex :
    (get_station_analysis oneStationEnv false [] [] "A").genCalls = 1 ∧
    (get_station_analysis oneStationEnv false [] [] "A").disk =
      ([] : List (String × NarrativeRecord)) ∧
    (get_station_analysis oneStationEnv true
      (get_station_analysis oneStationEnv false [] [] "A").mem
      (get_station_analysis oneStationEnv false [] [] "A").disk "A").genCalls = 0 ∧
    (get_station_analysis oneStationEnv true
      (get_station_analysis oneStationEnv false [] [] "A").mem
      (get_station_analysis oneStationEnv false [] [] "A").disk "A").record =
      (get_station_analysis oneStationEnv false [] [] "A").record :=
  ⟨rfl, rfl, rfl, rfl⟩

/-- C5 (amended): when the persistence write fails, the computed record
is still returned to the caller (and is the one stored in the in-memory
cache), the disk is left unchanged, and the next request in the same
process serves the cached record with no renewed generation; generation
is only retried after a restart that reloads the cache from disk. -/
theorem persist_failure_behavior :
    ∀ (env : Env) (mem disk : List (String × NarrativeRecord)) (s : String) (row : StationRow),
      mem.lookup s = none → env.table s = some row →
      (get_station_analysis env false mem disk s).genCalls = 1 ∧
      (get_station_analysis env false mem disk s).disk = disk ∧
      (get_station_analysis env false mem disk s).mem.lookup s =
        some (get_station_analysis env false mem disk s).record ∧
      (∀ pOk : Bool,
        (get_station_analysis env pOk (get_station_analysis env false mem disk s).mem
          (get_station_analysis env false mem disk s).disk s).genCalls = 0 ∧
        (get_station_analysis env pOk (get_station_analysis env false mem disk s).mem
          (get_station_analysis env false mem disk s).disk s).record =
          (get_station_analysis env false mem disk s).record) ∧
      (disk.lookup s = none →
        (get_station_analysis env true disk disk s).genCalls = 1) := by
  intro env mem disk s row h1 h2
  obtain ⟨rec0, k, hk, e1⟩ := gsa_miss (p := false) h1 h2
  have hmem : (get_station_analysis env false mem disk s).mem = (s, rec0) :: mem := by
    rw [e1]
  have hrec : (get_station_analysis env false mem disk s).record = rec0 := by
    rw [e1]
  refine ⟨by rw [e1], by rw [e1]; simp, ?_, ?_, ?_⟩
  · rw [hmem, hrec, List.lookup_cons_self]
  · intro pOk
    have e2 : get_station_analysis env pOk (get_station_analysis env false mem disk s).mem
        (get_station_analysis env false mem disk s).disk s =
        ⟨rec0, (s, rec0) :: mem, (get_station_analysis env false mem disk s).disk, 0, 0⟩ := by
      rw [hmem]
      exact gsa_hit List.lookup_cons_self
    rw [e2, hrec]
    exact ⟨rfl, rfl⟩
  · intro hdisk
    obtain ⟨rec1, k1, hk1, e3⟩ := gsa_miss (p := true) hdisk h2
    rw [e3]

/-- Witness for C5 at the one-station environment, empty caches and the
station `"A"`. -/
theorem persist_failure_behavior_witness :
    (get_station_analysis oneStationEnv false [] [] "A").genCalls = 1 ∧
    (get_station_analysis oneStationEnv false [] [] "A").disk =
      ([] : List (String × NarrativeRecord)) ∧
    (get_station_analysis oneStationEnv true (get_station_analysis oneStationEnv false [] [] "A").mem
      (get_station_analysis oneStationEnv false [] [] "A").disk "A").genCalls = 0 ∧
    (get_station_analysis oneStationEnv true ([] : List (String × NarrativeRecord))
      ([] : List (String × NarrativeRecord)) "A").genCalls = 1 :=
  ⟨(persist_failure_behavior oneStationEnv [] [] "A" bareRow rfl rfl).1,
    (persist_failure_behavior oneStationEnv [] [] "A" bareRow rfl rfl).2.1,
    ((persist_failure_behavior oneStationEnv [] [] "A" bareRow rfl rfl).2.2.2.1 true).1,
    (persist_failure_behavior oneStationEnv [] [] "A" bareRow rfl rfl).2.2.2.2 rfl⟩

/-- Witness for C6 at the all-equal TimeDNA `⟨20, 20, 20, 20⟩`, where
the morning bucket wins the tie. -/
theorem time_desc_dominant_bucket_witness :
    time_desc ⟨20, 20, 20, 20⟩ =
      "Passenger volume peaks in the Morning (6-10am), indicating a heavy outbound commuter flow." ∧
    time_desc ⟨20, 20, 20, 20⟩ ≠ "Ridership remains consistent throughout the day." :=
  ⟨(time_desc_dominant_bucket ⟨20, 20, 20, 20⟩).1 (by decide),
    (time_desc_dominant_bucket ⟨20, 20, 20, 20⟩).2.2.2.2⟩
